import Mathlib

/-!
Verification of the syntropyfront-interceptors repository.

The repository contains three interceptor variants (Redux, Vuex, DOM
global-error) that monkey-patch one method on a host object, emit
breadcrumbs around every invocation, and restore the original method on
teardown, plus a bounded setTimeout-based store-discovery loop.

The development below is a shallow embedding of that code:
- JavaScript function values stored in object slots are modelled by
  `FuncVal` (a host function with an identity, the installed wrapper, or
  undefined); JS truthiness of such a slot is `FuncVal.truthy`.
- The interceptor closure state plus the mutable host objects it touches
  form a world structure per variant (`VuexWorld`, `ReduxWorld`,
  `ErrorWorld`); each source operation becomes a total function on the
  world that also returns the list of console diagnostics it prints.
  The SecureAPI facade is modelled by its truthiness (the only thing the
  lifecycle code inspects); host callbacks reached through a
  typeof-checked function slot are modelled as non-throwing, except that
  the `subscribe` call made inside `setStore` may throw (flag
  `subscribeThrows`), exercising the try/catch of the source.
- Exceptions crossing an API boundary are `Except JsError`.
- The wrapped dispatch/commit call is modelled separately as a pure
  event-trace function (`reduxWrappedDispatch`, `vuexWrappedCommit`):
  the ordered list of SecureAPI calls it performs plus its outcome.
  Breadcrumb `data` payloads (store state snapshots) are opaque to every
  claim and are not modelled; category and message are.
-/

/-- A JavaScript error value, reduced to the fields the code reads. -/
structure JsError where
  message : String
  stack : String
deriving DecidableEq

/-- A TypeError such as the one raised when calling a missing method. -/
def jsTypeError (m : String) : JsError :=
  { message := m, stack := "TypeError" }

/-- A JavaScript function-valued slot: a host function (identified by a
number standing for its reference identity), the wrapper the interceptor
installs, or undefined. -/
inductive FuncVal where
  | orig (id : Nat)
  | wrapper
  | undef
deriving DecidableEq

/-- Mirrors the source check `typeof f === 'function'`. -/
def FuncVal.isFunction : FuncVal → Bool
  | .orig _ => true
  | .wrapper => true
  | .undef => false

/-- JavaScript truthiness of a function-valued slot: any function is
truthy, undefined is falsy. -/
def FuncVal.truthy : FuncVal → Bool
  | .orig _ => true
  | .wrapper => true
  | .undef => false

/-!
Discovery loop (`findStoreWithRetry` in `ReduxInterceptor.js` and
`VuexInterceptor.js`).

The loop body is, per the source: poll for a store; if found, `setStore`
it once and stop; otherwise if `retries > 0`, log and schedule
`findStoreWithRetry(retries - 1, delay)` with `setTimeout`; otherwise
print the give-up warning and stop.

The poll itself is the method `this.findVuexStore()` /
`this.findReduxStore()`, which is not defined anywhere in the repository
(neither in the sources nor in the published `dist` bundle); the loop
below is therefore parameterised by the poll, modelled from the spec:
a function from the attempt index to whether a well-known global
candidate is present at that time. `discoveryRun avail i retries` runs
the loop from attempt index `i` with `retries` remaining and records how
many polls ran, how many times `setStore` was invoked, how many timers
were scheduled, and whether the final give-up diagnostic was printed.
-/

/-- Observable outcome of one run of the discovery loop. -/
structure DiscoveryOutcome where
  polls : Nat
  binds : Nat
  scheduled : Nat
  warned : Bool
deriving DecidableEq

/-- The retry loop of `findStoreWithRetry`, with the candidate poll
abstracted as `avail` (attempt index to candidate-present). -/
def discoveryRun (avail : Nat → Bool) (i : Nat) : Nat → DiscoveryOutcome
  | 0 =>
      if avail i then { polls := 1, binds := 1, scheduled := 0, warned := false }
      else { polls := 1, binds := 0, scheduled := 0, warned := true }
  | r + 1 =>
      if avail i then { polls := 1, binds := 1, scheduled := 0, warned := false }
      else
        let rest := discoveryRun avail (i + 1) r
        { polls := rest.polls + 1, binds := rest.binds,
          scheduled := rest.scheduled + 1, warned := rest.warned }

/-- Property names of the object returned by `VuexInterceptor()`
(`src/VuexInterceptor.js`), in source order. -/
def vuexInterceptorKeys : List String :=
  ["name", "init", "findStoreWithRetry", "setStore", "autoFindStore",
   "getInfo", "destroy"]

/-- Property names of the object returned by `ReduxInterceptor()`
(the rollup source and the published `dist/index.js` bundle agree). -/
def reduxInterceptorKeys : List String :=
  ["name", "init", "findStoreWithRetry", "setStore", "autoFindStore",
   "getInfo", "destroy"]

/-- The call `this.findVuexStore()` that opens `findStoreWithRetry`:
JavaScript property lookup on the interceptor object (whose own keys are
`vuexInterceptorKeys` and whose prototype is `Object.prototype`) yields
undefined for a missing name, and invoking undefined raises a TypeError.
Were the lookup to succeed, the retry loop would run with the given
budget. -/
def vuexFindStoreWithRetryCall (avail : Nat → Bool) (retries : Nat) :
    Except JsError DiscoveryOutcome :=
  if vuexInterceptorKeys.contains "findVuexStore" then
    Except.ok (discoveryRun avail 0 retries)
  else
    Except.error (jsTypeError "this.findVuexStore is not a function")

/-- The call `this.findReduxStore()` that opens the Redux variant of
`findStoreWithRetry`. -/
def reduxFindStoreWithRetryCall (avail : Nat → Bool) (retries : Nat) :
    Except JsError DiscoveryOutcome :=
  if reduxInterceptorKeys.contains "findReduxStore" then
    Except.ok (discoveryRun avail 0 retries)
  else
    Except.error (jsTypeError "this.findReduxStore is not a function")

/-- `init(apiInstance)` for Vuex: stores the api, then calls
`this.findStoreWithRetry()` with the default budget of 5; whatever that
call raises propagates to the caller of `init`. -/
def vuexInitCall (avail : Nat → Bool) : Except JsError DiscoveryOutcome :=
  vuexFindStoreWithRetryCall avail 5

/-- `init(apiInstance)` for Redux. -/
def reduxInitCall (avail : Nat → Bool) : Except JsError DiscoveryOutcome :=
  reduxFindStoreWithRetryCall avail 5

/-!
Event-trace model of the wrapped store method.

`setStore` replaces `store.dispatch` / `store.commit` with a wrapper
that emits a pre-call breadcrumb, invokes the saved original with the
original arguments, and then either emits a post-call breadcrumb and
returns the original result, or (in the catch branch) sends an error
payload and re-throws the caught error. The SecureAPI calls are
fire-and-forget and modelled as non-throwing, so the only throwing site
inside the try block is the original method, given below as an
`Except`-valued function.
-/

/-- A Redux action, reduced to the fields the wrapper reads or forwards. -/
structure ReduxAction where
  type : String
  payload : String
deriving DecidableEq

/-- The error payload handed to `api.sendError` by the wrapper catch
branch: the JS `type` tag, `error.message`, `error.stack`, and the
triggering action/mutation. -/
structure ErrorPayload where
  typeTag : String
  message : String
  stack : String
  triggerType : String
  triggerPayload : String
deriving DecidableEq

/-- One call made on the SecureAPI facade by the wrapper. -/
inductive ApiEvent where
  | breadcrumb (category message : String)
  | errorSent (p : ErrorPayload)
deriving DecidableEq

/-- The instrumented `dispatch` installed by the Redux `setStore`:
the ordered SecureAPI calls it performs and its outcome, given the
behavior of the saved original dispatch on this action. -/
def reduxWrappedDispatch {α : Type} (origDispatch : ReduxAction → Except JsError α)
    (a : ReduxAction) : List ApiEvent × Except JsError α :=
  let pre := ApiEvent.breadcrumb "redux" ("Redux Action: " ++ a.type)
  match origDispatch a with
  | Except.ok r =>
      ([pre, ApiEvent.breadcrumb "redux" "Redux State Updated"], Except.ok r)
  | Except.error e =>
      ([pre, ApiEvent.errorSent
          { typeTag := "redux_dispatch_error", message := e.message,
            stack := e.stack, triggerType := a.type, triggerPayload := a.payload }],
       Except.error e)

/-- The instrumented `commit` installed by the Vuex `setStore`, over the
mutation type and payload arguments. -/
def vuexWrappedCommit {α : Type} (origCommit : String → String → Except JsError α)
    (ty payload : String) : List ApiEvent × Except JsError α :=
  let pre := ApiEvent.breadcrumb "vuex" ("Vuex Mutation: " ++ ty)
  match origCommit ty payload with
  | Except.ok r =>
      ([pre, ApiEvent.breadcrumb "vuex" "Vuex State Updated"], Except.ok r)
  | Except.error e =>
      ([pre, ApiEvent.errorSent
          { typeTag := "vuex_commit_error", message := e.message,
            stack := e.stack, triggerType := ty, triggerPayload := payload }],
       Except.error e)

/-!
Lifecycle state machines.

A world packs the interceptor closure variables together with the heap
of host store objects it may mutate (indexed by `Nat` references) and
the well-known global bindings inspected by `autoFindStore`.
-/

/-- A Vuex store object as seen by the interceptor: its `commit` and
`subscribe` slots, plus whether calling `subscribe` throws. -/
structure StoreObj where
  commit : FuncVal
  subscribe : FuncVal
  subscribeThrows : Bool
deriving DecidableEq

/-- Closure state of `VuexInterceptor()` plus the host heap and the
globals `window.$store`, `window.store`, `window.vuexStore`. The `api`
field is the truthiness of the facade reference. -/
structure VuexWorld where
  heap : Nat → StoreObj
  gDollarStore : Option Nat
  gStore : Option Nat
  gVuexStore : Option Nat
  originalCommit : Option FuncVal
  store : Option Nat
  unsub : Bool
  api : Bool

/-- A Redux store object: `dispatch`, `getState` and `subscribe` slots,
plus whether calling `subscribe` throws. -/
structure ReduxStoreObj where
  dispatch : FuncVal
  getState : FuncVal
  subscribe : FuncVal
  subscribeThrows : Bool
deriving DecidableEq

/-- Closure state of `ReduxInterceptor()` plus the host heap and the
globals `window.reduxStore`, `window.store` and the devtools bridge
(`gDevtools` abstracts a devtools connection that yields a store-like
object with `getState`; `none` covers it being absent, connect throwing,
or the probe lacking `getState`). -/
structure ReduxWorld where
  heap : Nat → ReduxStoreObj
  gReduxStore : Option Nat
  gStore : Option Nat
  gDevtools : Option Nat
  originalDispatch : Option FuncVal
  store : Option Nat
  unsub : Bool
  api : Bool

/-- State effect of Vuex `init(apiInstance)`: the facade is stored;
the subsequent `this.findStoreWithRetry()` call raises a TypeError (see
`vuexInitCall`) before touching any other closure variable. -/
def vuexInitOp (w : VuexWorld) : VuexWorld :=
  { w with api := true }

/-- State effect of Redux `init(apiInstance)`. -/
def reduxInitOp (w : ReduxWorld) : ReduxWorld :=
  { w with api := true }

/-- Vuex `setStore(vuexStore)`: warn and return if the facade is unset
or the argument is null; warn and return if the target lacks function
`commit`/`subscribe` slots; otherwise save the target and its current
`commit` as `originalCommit`, install the wrapper in the `commit` slot,
and subscribe (inside try/catch: if `subscribe` throws, the error is
logged and the unsubscribe handle is simply never stored). Returns the
updated world and the console diagnostics printed. -/
def vuexSetStore (w : VuexWorld) (arg : Option Nat) : VuexWorld × List String :=
  if !w.api then
    (w, ["SyntropyFront: Vuex interceptor no inicializado"])
  else
    match arg with
    | none => (w, ["SyntropyFront: Store de Vuex no válido"])
    | some r =>
      let obj := w.heap r
      if !obj.commit.isFunction || !obj.subscribe.isFunction then
        (w, ["SyntropyFront: Store de Vuex no tiene métodos requeridos (commit, subscribe)"])
      else
        let heap1 := Function.update w.heap r { obj with commit := FuncVal.wrapper }
        if obj.subscribeThrows then
          ({ w with store := some r, originalCommit := some obj.commit, heap := heap1 },
           ["SyntropyFront: Error configurando store de Vuex"])
        else
          ({ w with store := some r, originalCommit := some obj.commit, heap := heap1,
                    unsub := true },
           ["SyntropyFront: Store de Vuex configurado"])

/-- Redux `setStore(reduxStore)`: the validation of the source checks
`getState` and `subscribe` (not `dispatch`); on acceptance the current
`dispatch` slot value — whatever it is — is saved as `originalDispatch`
and the wrapper is installed in its place. -/
def reduxSetStore (w : ReduxWorld) (arg : Option Nat) : ReduxWorld × List String :=
  if !w.api then
    (w, ["SyntropyFront: Redux interceptor no inicializado"])
  else
    match arg with
    | none => (w, ["SyntropyFront: Store de Redux no válido"])
    | some r =>
      let obj := w.heap r
      if !obj.getState.isFunction || !obj.subscribe.isFunction then
        (w, ["SyntropyFront: Store de Redux no tiene métodos requeridos (getState, subscribe)"])
      else
        let heap1 := Function.update w.heap r { obj with dispatch := FuncVal.wrapper }
        if obj.subscribeThrows then
          ({ w with store := some r, originalDispatch := some obj.dispatch, heap := heap1 },
           ["SyntropyFront: Error configurando store de Redux"])
        else
          ({ w with store := some r, originalDispatch := some obj.dispatch, heap := heap1,
                    unsub := true },
           ["SyntropyFront: Store de Redux configurado"])

/-- Vuex `autoFindStore()`: warn and return false when the facade is
unset; otherwise take the first present of `window.$store`,
`window.store`, `window.vuexStore`; if one is present, call `setStore`
on it and return true (regardless of whether `setStore` accepted it),
else warn and return false. -/
def vuexAutoFindStore (w : VuexWorld) : (VuexWorld × List String) × Bool :=
  if !w.api then
    ((w, ["SyntropyFront: Vuex interceptor no inicializado"]), false)
  else
    match w.gDollarStore, w.gStore, w.gVuexStore with
    | some r, _, _ => (vuexSetStore w (some r), true)
    | none, some r, _ => (vuexSetStore w (some r), true)
    | none, none, some r => (vuexSetStore w (some r), true)
    | none, none, none =>
        ((w, ["SyntropyFront: No se encontró store de Vuex automáticamente"]), false)

/-- Redux `autoFindStore()`: first present of `window.reduxStore`,
`window.store`, then the devtools probe. -/
def reduxAutoFindStore (w : ReduxWorld) : (ReduxWorld × List String) × Bool :=
  if !w.api then
    ((w, ["SyntropyFront: Redux interceptor no inicializado"]), false)
  else
    match w.gReduxStore, w.gStore, w.gDevtools with
    | some r, _, _ => (reduxSetStore w (some r), true)
    | none, some r, _ => (reduxSetStore w (some r), true)
    | none, none, some r => (reduxSetStore w (some r), true)
    | none, none, none =>
        ((w, ["SyntropyFront: No se encontró store de Redux automáticamente"]), false)

/-- The snapshot returned by `getInfo()`. -/
structure InterceptorInfo where
  name : String
  isInitialized : Bool
  hasStore : Bool
  storeType : String
  methods : List String
deriving DecidableEq

/-- Vuex `getInfo()`. -/
def vuexGetInfo (w : VuexWorld) : InterceptorInfo :=
  { name := "vuex", isInitialized := w.api, hasStore := w.store.isSome,
    storeType := if w.store.isSome then "configured" else "none",
    methods := ["setStore", "autoFindStore", "getInfo"] }

/-- Redux `getInfo()`. -/
def reduxGetInfo (w : ReduxWorld) : InterceptorInfo :=
  { name := "redux", isInitialized := w.api, hasStore := w.store.isSome,
    storeType := if w.store.isSome then "configured" else "none",
    methods := ["setStore", "autoFindStore", "getInfo"] }

/-- Vuex `destroy()`: inside try/catch, restore the saved `commit` on
the bound target when both the store reference and the saved original
are truthy, invoke the unsubscribe handle if present (a host no-op
here), and clear all closure variables. -/
def vuexDestroy (w : VuexWorld) : VuexWorld × List String :=
  let w1 :=
    match w.store, w.originalCommit with
    | some r, some f =>
        if f.truthy then
          { w with heap := Function.update w.heap r { w.heap r with commit := f } }
        else w
    | _, _ => w
  ({ w1 with store := none, originalCommit := none, unsub := false, api := false },
   ["SyntropyFront: Vuex interceptor destruido"])

/-- Redux `destroy()`. -/
def reduxDestroy (w : ReduxWorld) : ReduxWorld × List String :=
  let w1 :=
    match w.store, w.originalDispatch with
    | some r, some f =>
        if f.truthy then
          { w with heap := Function.update w.heap r { w.heap r with dispatch := f } }
        else w
    | _, _ => w
  ({ w1 with store := none, originalDispatch := none, unsub := false, api := false },
   ["SyntropyFront: Redux interceptor destruido"])

/-- Invoking `store.commit` while the wrapper is installed and the saved
original has the given behavior: the lifecycle state is untouched (the
wrapper mutates no slot) and the call produces the event trace and
outcome of `vuexWrappedCommit`. -/
def vuexInvokeCommit {α : Type} (w : VuexWorld)
    (origCommit : String → String → Except JsError α) (ty payload : String) :
    VuexWorld × (List ApiEvent × Except JsError α) :=
  (w, vuexWrappedCommit origCommit ty payload)

/-- Invoking `store.dispatch` while the wrapper is installed. -/
def reduxInvokeDispatch {α : Type} (w : ReduxWorld)
    (origDispatch : ReduxAction → Except JsError α) (a : ReduxAction) :
    ReduxWorld × (List ApiEvent × Except JsError α) :=
  (w, reduxWrappedDispatch origDispatch a)

/-- A freshly constructed `VuexInterceptor()` closure over an arbitrary
environment: all closure fields null. -/
def vuexStartWorld (heap : Nat → StoreObj) (g1 g2 g3 : Option Nat) : VuexWorld :=
  { heap := heap, gDollarStore := g1, gStore := g2, gVuexStore := g3,
    originalCommit := none, store := none, unsub := false, api := false }

/-- A freshly constructed `ReduxInterceptor()` closure. -/
def reduxStartWorld (heap : Nat → ReduxStoreObj) (g1 g2 g3 : Option Nat) : ReduxWorld :=
  { heap := heap, gReduxStore := g1, gStore := g2, gDevtools := g3,
    originalDispatch := none, store := none, unsub := false, api := false }

/-- Worlds reachable by any sequence of the Vuex interceptor entry
points. `init` contributes its state effect (`vuexInitOp`); the
discovery loop it starts dies with a TypeError before any further state
change, and any later bind is covered by the `setStep` constructor. -/
inductive VuexReach : VuexWorld → Prop where
  | start (heap : Nat → StoreObj) (g1 g2 g3 : Option Nat) :
      VuexReach (vuexStartWorld heap g1 g2 g3)
  | initStep {w : VuexWorld} : VuexReach w → VuexReach (vuexInitOp w)
  | setStep {w : VuexWorld} (arg : Option Nat) :
      VuexReach w → VuexReach (vuexSetStore w arg).1
  | autoStep {w : VuexWorld} : VuexReach w → VuexReach (vuexAutoFindStore w).1.1
  | destroyStep {w : VuexWorld} : VuexReach w → VuexReach (vuexDestroy w).1

/-- Worlds reachable by any sequence of the Redux interceptor entry
points. -/
inductive ReduxReach : ReduxWorld → Prop where
  | start (heap : Nat → ReduxStoreObj) (g1 g2 g3 : Option Nat) :
      ReduxReach (reduxStartWorld heap g1 g2 g3)
  | initStep {w : ReduxWorld} : ReduxReach w → ReduxReach (reduxInitOp w)
  | setStep {w : ReduxWorld} (arg : Option Nat) :
      ReduxReach w → ReduxReach (reduxSetStore w arg).1
  | autoStep {w : ReduxWorld} : ReduxReach w → ReduxReach (reduxAutoFindStore w).1.1
  | destroyStep {w : ReduxWorld} : ReduxReach w → ReduxReach (reduxDestroy w).1

/-!
The DOM global-error variant (`ErrorInterceptor`).
-/

/-- A `window.onerror` / `window.onunhandledrejection` slot value: a
pre-existing host handler, the interceptor replacement handler, or
null. -/
inductive HandlerVal where
  | host (id : Nat)
  | replacement
  | null
deriving DecidableEq

/-- JavaScript truthiness of a handler slot. -/
def HandlerVal.truthy : HandlerVal → Bool
  | .host _ => true
  | .replacement => true
  | .null => false

/-- `ErrorInterceptor` instance state plus the two window handler slots.
`savedOnerror`/`savedOnrejection` are the `originalHandlers` properties
(`none` when the property is absent, `some v` when it holds `v`,
possibly null). -/
structure ErrorWorld where
  isInitialized : Bool
  savedOnerror : Option HandlerVal
  savedOnrejection : Option HandlerVal
  winOnerror : HandlerVal
  winOnrejection : HandlerVal
deriving DecidableEq

/-- `ErrorInterceptor.init(syntropyFront, config)` in a browser
environment: no-op with a warning when already initialized, otherwise
save each window handler (even a null one) into `originalHandlers` and
install the replacement, per the `captureErrors` /
`captureUnhandledRejections` configuration flags (both default true). -/
def errorInit (w : ErrorWorld) (captureErrors captureRejections : Bool) :
    ErrorWorld × List String :=
  if w.isInitialized then
    (w, ["ErrorInterceptor: Already initialized"])
  else
    let w1 :=
      if captureErrors then
        { w with savedOnerror := some w.winOnerror,
                 winOnerror := HandlerVal.replacement }
      else w
    let w2 :=
      if captureRejections then
        { w1 with savedOnrejection := some w1.winOnrejection,
                  winOnrejection := HandlerVal.replacement }
      else w1
    ({ w2 with isInitialized := true },
     ["ErrorInterceptor: Automatic error capture started"])

/-- `ErrorInterceptor.destroy()`: return at once when not initialized;
otherwise write each saved handler back only when it is truthy (the
source guards both write-backs with a truthiness test), then clear
`isInitialized` and `originalHandlers`. -/
def errorDestroy (w : ErrorWorld) : ErrorWorld :=
  if !w.isInitialized then w
  else
    let w1 :=
      match w.savedOnerror with
      | some h => if h.truthy then { w with winOnerror := h } else w
      | none => w
    let w2 :=
      match w1.savedOnrejection with
      | some h => if h.truthy then { w1 with winOnrejection := h } else w1
      | none => w1
    { w2 with isInitialized := false, savedOnerror := none, savedOnrejection := none }

/-!
Concrete sample values used by counterexample and witness theorems.
-/

/-- A well-formed Vuex store object: host `commit` (identity 7) and host
`subscribe` (identity 8), whose `subscribe` does not throw. -/
def vuexSampleObj : StoreObj :=
  { commit := FuncVal.orig 7, subscribe := FuncVal.orig 8, subscribeThrows := false }

/-- An initialized, unbound Vuex interceptor world whose heap holds
`vuexSampleObj` everywhere and whose globals are absent. -/
def vuexSampleWorld : VuexWorld :=
  { heap := fun _ => vuexSampleObj, gDollarStore := none, gStore := none,
    gVuexStore := none, originalCommit := none, store := none, unsub := false,
    api := true }

/-- A well-formed Redux store object with host `dispatch` (identity 4),
`getState` (identity 5) and `subscribe` (identity 6). -/
def reduxSampleObj : ReduxStoreObj :=
  { dispatch := FuncVal.orig 4, getState := FuncVal.orig 5,
    subscribe := FuncVal.orig 6, subscribeThrows := false }

/-- An initialized, unbound Redux interceptor world over `reduxSampleObj`. -/
def reduxSampleWorld : ReduxWorld :=
  { heap := fun _ => reduxSampleObj, gReduxStore := none, gStore := none,
    gDevtools := none, originalDispatch := none, store := none, unsub := false,
    api := true }

/-- A Redux store object with no `dispatch` function but with the
`getState` and `subscribe` functions the source validation checks. -/
def reduxNoDispatchObj : ReduxStoreObj :=
  { dispatch := FuncVal.undef, getState := FuncVal.orig 1,
    subscribe := FuncVal.orig 2, subscribeThrows := false }

/-- An initialized, unbound Redux world over `reduxNoDispatchObj`. -/
def reduxNoDispatchWorld : ReduxWorld :=
  { heap := fun _ => reduxNoDispatchObj, gReduxStore := none, gStore := none,
    gDevtools := none, originalDispatch := none, store := none, unsub := false,
    api := true }

/-- A Vuex store object with no `subscribe` function. -/
def vuexNoSubscribeObj : StoreObj :=
  { commit := FuncVal.orig 3, subscribe := FuncVal.undef, subscribeThrows := false }

/-- An initialized, unbound Vuex world over `vuexNoSubscribeObj`. -/
def vuexNoSubscribeWorld : VuexWorld :=
  { heap := fun _ => vuexNoSubscribeObj, gDollarStore := none, gStore := none,
    gVuexStore := none, originalCommit := none, store := none, unsub := false,
    api := true }

/-- A sample action. -/
def sampleAction : ReduxAction := { type := "X", payload := "p1" }

/-- A sample original dispatch that returns normally (Redux dispatch
conventionally returns the action; here its type). -/
def sampleDispatchOk : ReduxAction → Except JsError String :=
  fun a => Except.ok a.type

/-- A sample original commit that returns normally. -/
def sampleCommitOk : String → String → Except JsError String :=
  fun ty _ => Except.ok ty

/-- A sample error thrown by an original method. -/
def sampleError : JsError := { message := "boom", stack := "trace0" }

/-- A sample original dispatch that throws `sampleError`. -/
def sampleDispatchBad : ReduxAction → Except JsError String :=
  fun _ => Except.error sampleError

/-- A sample original commit that throws `sampleError`. -/
def sampleCommitBad : String → String → Except JsError String :=
  fun _ _ => Except.error sampleError

/-- The world reached by constructing the Vuex interceptor over
`vuexSampleObj`, calling `init`, then `setStore` on target 0. -/
def c10VuexWorld : VuexWorld :=
  (vuexSetStore (vuexInitOp (vuexStartWorld (fun _ => vuexSampleObj) none none none))
    (some 0)).1

/-- The world reached by constructing the Redux interceptor over
`reduxSampleObj`, calling `init`, then `setStore` on target 0. -/
def c10ReduxWorld : ReduxWorld :=
  (reduxSetStore (reduxInitOp (reduxStartWorld (fun _ => reduxSampleObj) none none none))
    (some 0)).1

/-- The world with no pre-existing window handlers (both slots null),
the state in which `ErrorInterceptor` is typically installed. -/
def errorNullWorld : ErrorWorld :=
  { isInitialized := false, savedOnerror := none, savedOnrejection := none,
    winOnerror := HandlerVal.null, winOnrejection := HandlerVal.null }

/-!
Helper lemmas.
-/

/-- If no candidate is ever present, the loop from any start index with
budget `n` performs exactly `n + 1` polls, never binds, schedules `n`
timers, and ends with the give-up diagnostic. -/
theorem discoveryRun_exhaust (avail : Nat → Bool) (h : ∀ i, avail i = false) :
    ∀ n i, discoveryRun avail i n =
      { polls := n + 1, binds := 0, scheduled := n, warned := true } := by
  intro n
  induction n with
  | zero => intro i; simp [discoveryRun, h i]
  | succ r ih => intro i; simp [discoveryRun, h i, ih (i + 1)]

/-- If the first present candidate appears at relative attempt `j ≤ n`,
the loop performs `j + 1` polls, binds exactly once, schedules `j`
timers, and never prints the give-up diagnostic. -/
theorem discoveryRun_success (avail : Nat → Bool) :
    ∀ j i n, (∀ k, k < j → avail (i + k) = false) → avail (i + j) = true →
      j ≤ n →
      discoveryRun avail i n =
        { polls := j + 1, binds := 1, scheduled := j, warned := false } := by
  intro j
  induction j with
  | zero =>
      intro i n _ hfound _
      cases n with
      | zero => simp at hfound; simp [discoveryRun, hfound]
      | succ r => simp at hfound; simp [discoveryRun, hfound]
  | succ j ih =>
      intro i n hmiss hfound hle
      cases n with
      | zero => omega
      | succ r =>
        have h0 : avail i = false := by
          have := hmiss 0 (Nat.succ_pos j)
          simpa using this
        have hshift : ∀ k, k < j → avail (i + 1 + k) = false := by
          intro k hk
          have := hmiss (k + 1) (by omega)
          have harith : i + (k + 1) = i + 1 + k := by omega
          rwa [harith] at this
        have hfound' : avail (i + 1 + j) = true := by
          have harith : i + (j + 1) = i + 1 + j := by omega
          rwa [harith] at hfound
        have hrest := ih (i + 1) r hshift hfound' (by omega)
        simp [discoveryRun, h0, hrest]

/-- `setStore` never changes the Vuex facade reference. -/
theorem vuexSetStore_api (w : VuexWorld) (arg : Option Nat) :
    (vuexSetStore w arg).1.api = w.api := by
  unfold vuexSetStore
  split
  · rfl
  · cases arg with
    | none => rfl
    | some r =>
        dsimp only
        split
        · rfl
        · split <;> rfl

/-- `setStore` never changes the Redux facade reference. -/
theorem reduxSetStore_api (w : ReduxWorld) (arg : Option Nat) :
    (reduxSetStore w arg).1.api = w.api := by
  unfold reduxSetStore
  split
  · rfl
  · cases arg with
    | none => rfl
    | some r =>
        dsimp only
        split
        · rfl
        · split <;> rfl

/-- When the Vuex facade is unset, `setStore` rejects and leaves the
world untouched. -/
theorem vuexSetStore_noApi (w : VuexWorld) (arg : Option Nat) (h : w.api = false) :
    (vuexSetStore w arg).1 = w := by
  unfold vuexSetStore
  simp [h]

/-- When the Redux facade is unset, `setStore` rejects and leaves the
world untouched. -/
theorem reduxSetStore_noApi (w : ReduxWorld) (arg : Option Nat) (h : w.api = false) :
    (reduxSetStore w arg).1 = w := by
  unfold reduxSetStore
  simp [h]

/-- `setStore` preserves the Vuex invariant that a bound store implies a
set facade. -/
theorem vuexSetStore_inv (w : VuexWorld) (arg : Option Nat)
    (h : w.store.isSome → w.api = true) :
    (vuexSetStore w arg).1.store.isSome → (vuexSetStore w arg).1.api = true := by
  intro hs
  rcases hb : w.api with _ | _
  · rw [vuexSetStore_noApi w arg hb] at hs
    exact absurd (h hs) (by simp [hb])
  · rw [vuexSetStore_api]; exact hb

/-- `setStore` preserves the Redux invariant that a bound store implies
a set facade. -/
theorem reduxSetStore_inv (w : ReduxWorld) (arg : Option Nat)
    (h : w.store.isSome → w.api = true) :
    (reduxSetStore w arg).1.store.isSome → (reduxSetStore w arg).1.api = true := by
  intro hs
  rcases hb : w.api with _ | _
  · rw [reduxSetStore_noApi w arg hb] at hs
    exact absurd (h hs) (by simp [hb])
  · rw [reduxSetStore_api]; exact hb

/-!
Claim theorems.
-/

/-- C1: the claim states that for both variants and every environment,
`init(api)` and every discovery poll complete without throwing. In the
code, the first statement of `findStoreWithRetry` calls
`this.findVuexStore()` (resp. `this.findReduxStore()`), a method defined
nowhere in the repository, so `init` raises a TypeError for every
environment instead of degrading to a no-op: the claim fails on the
code (code bug: the spec and the package README clearly intend the
retry loop to run and degrade gracefully). -/
theorem c1_init_and_discovery_throw (avail : Nat → Bool) :
    vuexInitCall avail =
      Except.error (jsTypeError "this.findVuexStore is not a function")
  ∧ reduxInitCall avail =
      Except.error (jsTypeError "this.findReduxStore is not a function") := by
  constructor <;> rfl

/-- C2 counterexample: with a candidate that never becomes available,
the discovery loop started with the default budget of 5 does not perform
5 poll attempts as the claim states — it performs 6 (1 immediate plus 5
scheduled retries). -/
theorem c2_counterexample : (discoveryRun (fun _ => false) 0 5).polls ≠ 5 := by
  decide

/-- C2 (amended): with the default budget of 5 retries, if no candidate
ever becomes available the loop performs exactly 6 poll attempts
(1 immediate plus 5 scheduled at 500 ms), emits the final give-up
diagnostic, and schedules no further polls (exactly 5 timers ever, and
the run is a terminating value); if the first candidate appears on
attempt index `j` within the budget, `setStore` is called exactly once,
no further polls occur after attempt `j`, and no timer beyond the `j`
already spent is scheduled. -/
theorem c2_discovery_budget (avail : Nat → Bool) :
    ((∀ i, avail i = false) →
      discoveryRun avail 0 5 = { polls := 6, binds := 0, scheduled := 5, warned := true })
  ∧ (∀ j, j ≤ 5 → (∀ k, k < j → avail k = false) → avail j = true →
      discoveryRun avail 0 5 =
        { polls := j + 1, binds := 1, scheduled := j, warned := false }) := by
  constructor
  · intro h
    exact discoveryRun_exhaust avail h 5 0
  · intro j hj hmiss hfound
    have hmiss' : ∀ k, k < j → avail (0 + k) = false := by
      intro k hk; simpa using hmiss k hk
    have hfound' : avail (0 + j) = true := by simpa using hfound
    exact discoveryRun_success avail j 0 5 hmiss' hfound' hj

/-- Witness for C2: the never-available poll yields exactly 6 polls and
the diagnostic; a poll first available at attempt 2 yields one bind and
3 polls. -/
theorem c2_discovery_budget_witness :
    discoveryRun (fun _ => false) 0 5 =
      { polls := 6, binds := 0, scheduled := 5, warned := true }
  ∧ discoveryRun (fun i => i == 2) 0 5 =
      { polls := 3, binds := 1, scheduled := 2, warned := false } :=
  ⟨(c2_discovery_budget (fun _ => false)).1 (fun _ => rfl),
   (c2_discovery_budget (fun i => i == 2)).2 2 (by decide) (by decide) (by decide)⟩

/-- C3: for both variants, whenever the saved original method returns
normally, the wrapper emits exactly two breadcrumbs — the pre-call one
then the post-call one, in that order, with the source categories and
messages — and returns the original result unchanged. -/
theorem c3_success_two_breadcrumbs :
    (∀ (origDispatch : ReduxAction → Except JsError String) (a : ReduxAction) (r : String),
        origDispatch a = Except.ok r →
        reduxWrappedDispatch origDispatch a =
          ([ApiEvent.breadcrumb "redux" ("Redux Action: " ++ a.type),
            ApiEvent.breadcrumb "redux" "Redux State Updated"], Except.ok r))
  ∧ (∀ (origCommit : String → String → Except JsError String) (ty p r : String),
        origCommit ty p = Except.ok r →
        vuexWrappedCommit origCommit ty p =
          ([ApiEvent.breadcrumb "vuex" ("Vuex Mutation: " ++ ty),
            ApiEvent.breadcrumb "vuex" "Vuex State Updated"], Except.ok r)) := by
  constructor
  · intro origDispatch a r h
    unfold reduxWrappedDispatch
    rw [h]
  · intro origCommit ty p r h
    unfold vuexWrappedCommit
    rw [h]

/-- Witness for C3 at a concrete action, mutation and original method. -/
theorem c3_success_two_breadcrumbs_witness :
    reduxWrappedDispatch sampleDispatchOk sampleAction =
      ([ApiEvent.breadcrumb "redux" ("Redux Action: " ++ sampleAction.type),
        ApiEvent.breadcrumb "redux" "Redux State Updated"], Except.ok "X")
  ∧ vuexWrappedCommit sampleCommitOk "inc" "p2" =
      ([ApiEvent.breadcrumb "vuex" ("Vuex Mutation: " ++ "inc"),
        ApiEvent.breadcrumb "vuex" "Vuex State Updated"], Except.ok "inc") :=
  ⟨c3_success_two_breadcrumbs.1 sampleDispatchOk sampleAction "X" rfl,
   c3_success_two_breadcrumbs.2 sampleCommitOk "inc" "p2" "inc" rfl⟩

/-- C4: for both variants, whenever the saved original method throws,
the wrapper emits exactly one breadcrumb (the pre-call one), then sends
exactly one error payload carrying the error message, its stack and the
triggering action/mutation, and then re-raises the identical error. -/
theorem c4_error_path :
    (∀ (origDispatch : ReduxAction → Except JsError String) (a : ReduxAction) (e : JsError),
        origDispatch a = Except.error e →
        reduxWrappedDispatch origDispatch a =
          ([ApiEvent.breadcrumb "redux" ("Redux Action: " ++ a.type),
            ApiEvent.errorSent
              { typeTag := "redux_dispatch_error", message := e.message,
                stack := e.stack, triggerType := a.type, triggerPayload := a.payload }],
           Except.error e))
  ∧ (∀ (origCommit : String → String → Except JsError String) (ty p : String) (e : JsError),
        origCommit ty p = Except.error e →
        vuexWrappedCommit origCommit ty p =
          ([ApiEvent.breadcrumb "vuex" ("Vuex Mutation: " ++ ty),
            ApiEvent.errorSent
              { typeTag := "vuex_commit_error", message := e.message,
                stack := e.stack, triggerType := ty, triggerPayload := p }],
           Except.error e)) := by
  constructor
  · intro origDispatch a e h
    unfold reduxWrappedDispatch
    rw [h]
  · intro origCommit ty p e h
    unfold vuexWrappedCommit
    rw [h]

/-- Witness for C4 at a concrete action, mutation and throwing original. -/
theorem c4_error_path_witness :
    reduxWrappedDispatch sampleDispatchBad sampleAction =
      ([ApiEvent.breadcrumb "redux" ("Redux Action: " ++ sampleAction.type),
        ApiEvent.errorSent
          { typeTag := "redux_dispatch_error", message := sampleError.message,
            stack := sampleError.stack, triggerType := sampleAction.type,
            triggerPayload := sampleAction.payload }],
       Except.error sampleError)
  ∧ vuexWrappedCommit sampleCommitBad "inc" "p2" =
      ([ApiEvent.breadcrumb "vuex" ("Vuex Mutation: " ++ "inc"),
        ApiEvent.errorSent
          { typeTag := "vuex_commit_error", message := sampleError.message,
            stack := sampleError.stack, triggerType := "inc", triggerPayload := "p2" }],
       Except.error sampleError) :=
  ⟨c4_error_path.1 sampleDispatchBad sampleAction sampleError rfl,
   c4_error_path.2 sampleCommitBad "inc" "p2" sampleError rfl⟩

/-- C5 counterexample: the claim says a Redux target lacking a
`dispatch` function is rejected without mutation, but the source
validation checks `getState` and `subscribe` only. A target with
`getState` and `subscribe` functions and no `dispatch` is accepted and
mutated (the interceptor binds it and patches its `dispatch` slot). -/
theorem c5_counterexample :
    (reduxNoDispatchWorld.heap 0).dispatch.isFunction = false
  ∧ (reduxSetStore reduxNoDispatchWorld (some 0)).1 ≠ reduxNoDispatchWorld := by
  constructor
  · rfl
  · intro h
    have hs := congrArg ReduxWorld.store h
    simp [reduxSetStore, reduxNoDispatchWorld, reduxNoDispatchObj,
      FuncVal.isFunction] at hs

/-- C5 (amended): the capability set the code validates is `getState`
plus `subscribe` for Redux and `commit` plus `subscribe` for Vuex. Every
`setStore` call whose target is null or lacks that set is rejected: a
diagnostic is emitted (the returned console output is nonempty) and the
world — both the target heap and the closure state — is returned
untouched; the rejection paths contain no throwing operation. -/
theorem c5_invalid_target_rejected :
    (∀ (w : ReduxWorld) (arg : Option Nat),
        (arg = none ∨ ∃ r, arg = some r ∧
            ((w.heap r).getState.isFunction = false ∨
             (w.heap r).subscribe.isFunction = false)) →
        (reduxSetStore w arg).1 = w ∧ (reduxSetStore w arg).2 ≠ [])
  ∧ (∀ (w : VuexWorld) (arg : Option Nat),
        (arg = none ∨ ∃ r, arg = some r ∧
            ((w.heap r).commit.isFunction = false ∨
             (w.heap r).subscribe.isFunction = false)) →
        (vuexSetStore w arg).1 = w ∧ (vuexSetStore w arg).2 ≠ []) := by
  constructor
  · intro w arg h
    rcases hb : w.api with _ | _
    · unfold reduxSetStore
      simp [hb]
    · rcases h with rfl | ⟨r, rfl, hbad⟩
      · unfold reduxSetStore
        simp [hb]
      · unfold reduxSetStore
        rcases hbad with hg | hg <;> simp [hb, hg]
  · intro w arg h
    rcases hb : w.api with _ | _
    · unfold vuexSetStore
      simp [hb]
    · rcases h with rfl | ⟨r, rfl, hbad⟩
      · unfold vuexSetStore
        simp [hb]
      · unfold vuexSetStore
        rcases hbad with hg | hg <;> simp [hb, hg]

/-- Witness for C5: a null Redux target and a Vuex target without a
`subscribe` function are both rejected without mutation. -/
theorem c5_invalid_target_rejected_witness :
    ((reduxSetStore reduxSampleWorld none).1 = reduxSampleWorld
      ∧ (reduxSetStore reduxSampleWorld none).2 ≠ [])
  ∧ ((vuexSetStore vuexNoSubscribeWorld (some 0)).1 = vuexNoSubscribeWorld
      ∧ (vuexSetStore vuexNoSubscribeWorld (some 0)).2 ≠ []) :=
  ⟨c5_invalid_target_rejected.1 reduxSampleWorld none (Or.inl rfl),
   c5_invalid_target_rejected.2 vuexNoSubscribeWorld (some 0)
     (Or.inr ⟨0, rfl, Or.inr rfl⟩)⟩

/-- C6: the claim states that a second `setStore` never silently
overwrites the saved original method. Evaluating the code on a double
bind of the same valid target (both variants) shows the opposite: the
first bind saves the genuine host method (`orig 7` commit, `orig 4`
dispatch); the second bind saves the wrapper installed by the first bind
as `originalCommit`/`originalDispatch`, so the genuine pre-patch
reference is silently lost while the target remains bound and patched —
a code bug the specification itself flags as a latent defect. -/
theorem c6_rebind_overwrites_original :
    (vuexSetStore vuexSampleWorld (some 0)).1.originalCommit = some (FuncVal.orig 7)
  ∧ (vuexSetStore (vuexSetStore vuexSampleWorld (some 0)).1 (some 0)).1.originalCommit
      = some FuncVal.wrapper
  ∧ (reduxSetStore reduxSampleWorld (some 0)).1.originalDispatch = some (FuncVal.orig 4)
  ∧ (reduxSetStore (reduxSetStore reduxSampleWorld (some 0)).1 (some 0)).1.originalDispatch
      = some FuncVal.wrapper := by
  refine ⟨rfl, rfl, rfl, rfl⟩

/-- C7: for every world whose facade is set and every target reference
whose `commit` (resp. `dispatch`) currently holds a host function and
which passes the source validation, the sequence `setStore`, one
invocation of the wrapped method, `destroy` writes the saved original
back into the patched slot, so the slot again holds the very function
reference it held before binding (hence subsequent calls are the
un-instrumented method itself). The invocation step leaves the lifecycle
state untouched and is the event-trace semantics `vuexInvokeCommit` /
`reduxInvokeDispatch`. -/
theorem c7_bind_invoke_destroy_restores :
    (∀ (w : VuexWorld) (r c : Nat)
        (origCommit : String → String → Except JsError String) (ty p : String),
        w.api = true →
        (w.heap r).commit = FuncVal.orig c →
        (w.heap r).subscribe.isFunction = true →
        ((vuexDestroy
            (vuexInvokeCommit (vuexSetStore w (some r)).1 origCommit ty p).1).1.heap r).commit
          = (w.heap r).commit)
  ∧ (∀ (w : ReduxWorld) (r d : Nat)
        (origDispatch : ReduxAction → Except JsError String) (a : ReduxAction),
        w.api = true →
        (w.heap r).dispatch = FuncVal.orig d →
        (w.heap r).getState.isFunction = true →
        (w.heap r).subscribe.isFunction = true →
        ((reduxDestroy
            (reduxInvokeDispatch (reduxSetStore w (some r)).1 origDispatch a).1).1.heap r).dispatch
          = (w.heap r).dispatch) := by
  constructor
  · intro w r c origCommit ty p hapi hcommit hsub
    have hfun : (FuncVal.orig c).isFunction = true := rfl
    have htru : (FuncVal.orig c).truthy = true := rfl
    unfold vuexInvokeCommit vuexSetStore vuexDestroy
    by_cases hst : (w.heap r).subscribeThrows = true <;>
      simp [hapi, hfun, htru, hsub, hst, hcommit, Function.update_same]
  · intro w r d origDispatch a hapi hdisp hget hsub
    have hfun : (FuncVal.orig d).isFunction = true := rfl
    have htru : (FuncVal.orig d).truthy = true := rfl
    unfold reduxInvokeDispatch reduxSetStore reduxDestroy
    by_cases hst : (w.heap r).subscribeThrows = true <;>
      simp [hapi, hfun, htru, hget, hsub, hst, hdisp, Function.update_same]

/-- Witness for C7 at the sample worlds and sample originals. -/
theorem c7_bind_invoke_destroy_restores_witness :
    ((vuexDestroy
        (vuexInvokeCommit (vuexSetStore vuexSampleWorld (some 0)).1
          sampleCommitOk "inc" "p2").1).1.heap 0).commit
      = (vuexSampleWorld.heap 0).commit
  ∧ ((reduxDestroy
        (reduxInvokeDispatch (reduxSetStore reduxSampleWorld (some 0)).1
          sampleDispatchOk sampleAction).1).1.heap 0).dispatch
      = (reduxSampleWorld.heap 0).dispatch :=
  ⟨c7_bind_invoke_destroy_restores.1 vuexSampleWorld 0 7 sampleCommitOk "inc" "p2"
      rfl rfl rfl,
   c7_bind_invoke_destroy_restores.2 reduxSampleWorld 0 4 sampleDispatchOk sampleAction
      rfl rfl rfl rfl⟩

/-- `destroy` always clears the Vuex store reference. -/
theorem vuexDestroy_store (w : VuexWorld) : (vuexDestroy w).1.store = none := rfl

/-- `destroy` always clears the Redux store reference. -/
theorem reduxDestroy_store (w : ReduxWorld) : (reduxDestroy w).1.store = none := rfl

/-- `autoFindStore` preserves the Vuex invariant that a bound store
implies a set facade. -/
theorem vuexAutoFindStore_inv (w : VuexWorld)
    (h : w.store.isSome → w.api = true) :
    (vuexAutoFindStore w).1.1.store.isSome → (vuexAutoFindStore w).1.1.api = true := by
  unfold vuexAutoFindStore
  by_cases hb : w.api = true
  · rcases h1 : w.gDollarStore with _ | r
    · rcases h2 : w.gStore with _ | r
      · rcases h3 : w.gVuexStore with _ | r
        · simp [hb, h1, h2, h3]
        · simp only [hb, Bool.not_true, Bool.false_eq_true, if_false, h1, h2, h3]
          exact vuexSetStore_inv w (some r) h
      · simp only [hb, Bool.not_true, Bool.false_eq_true, if_false, h1, h2]
        exact vuexSetStore_inv w (some r) h
    · simp only [hb, Bool.not_true, Bool.false_eq_true, if_false, h1]
      exact vuexSetStore_inv w (some r) h
  · have hb' : w.api = false := by revert hb; cases w.api <;> simp
    intro hs
    simp only [hb', Bool.not_false, if_true] at hs ⊢
    exact absurd (h hs) (by simp [hb'])

/-- `autoFindStore` preserves the Redux invariant that a bound store
implies a set facade. -/
theorem reduxAutoFindStore_inv (w : ReduxWorld)
    (h : w.store.isSome → w.api = true) :
    (reduxAutoFindStore w).1.1.store.isSome → (reduxAutoFindStore w).1.1.api = true := by
  unfold reduxAutoFindStore
  by_cases hb : w.api = true
  · rcases h1 : w.gReduxStore with _ | r
    · rcases h2 : w.gStore with _ | r
      · rcases h3 : w.gDevtools with _ | r
        · simp [hb, h1, h2, h3]
        · simp only [hb, Bool.not_true, Bool.false_eq_true, if_false, h1, h2, h3]
          exact reduxSetStore_inv w (some r) h
      · simp only [hb, Bool.not_true, Bool.false_eq_true, if_false, h1, h2]
        exact reduxSetStore_inv w (some r) h
    · simp only [hb, Bool.not_true, Bool.false_eq_true, if_false, h1]
      exact reduxSetStore_inv w (some r) h
  · have hb' : w.api = false := by revert hb; cases w.api <;> simp
    intro hs
    simp only [hb', Bool.not_false, if_true] at hs ⊢
    exact absurd (h hs) (by simp [hb'])

/-- A not-initialized `ErrorInterceptor` ignores `destroy`. -/
theorem errorDestroy_notInited (w : ErrorWorld) (h : w.isInitialized = false) :
    errorDestroy w = w := by
  unfold errorDestroy
  simp [h]

/-- After `destroy` on an initialized `ErrorInterceptor`, the instance
is no longer initialized. -/
theorem errorDestroy_inited (w : ErrorWorld) (h : w.isInitialized = true) :
    (errorDestroy w).isInitialized = false := by
  unfold errorDestroy
  simp [h]

/-- C8: the claim states that `ErrorInterceptor.destroy()` restores both
window handler slots to exactly the handlers saved at init time, in
particular returning a slot to null when the saved handler was null.
Evaluating the code in the environment where both pre-existing handlers
are null: after `init` then `destroy`, both slots still hold the
interceptor replacement handler, because the source guards each
write-back with a truthiness test that a saved null handler fails — a
code bug (destroy even logs that handlers were restored). -/
theorem c8_destroy_keeps_replacement_handler :
    errorNullWorld.winOnerror = HandlerVal.null
  ∧ errorNullWorld.winOnrejection = HandlerVal.null
  ∧ (errorDestroy (errorInit errorNullWorld true true).1).winOnerror
      = HandlerVal.replacement
  ∧ (errorDestroy (errorInit errorNullWorld true true).1).winOnrejection
      = HandlerVal.replacement := by
  refine ⟨rfl, rfl, rfl, rfl⟩

/-- C9: for all three interceptor units and every prior state — never
initialized, initialized but unbound, bound, or already destroyed —
`destroy` is idempotent: a second call is a total function (no
exception) and leaves the closure state, the target heap and the window
slots exactly as one call left them. -/
theorem c9_destroy_idempotent :
    (∀ w : VuexWorld, (vuexDestroy (vuexDestroy w).1).1 = (vuexDestroy w).1)
  ∧ (∀ w : ReduxWorld, (reduxDestroy (reduxDestroy w).1).1 = (reduxDestroy w).1)
  ∧ (∀ w : ErrorWorld, errorDestroy (errorDestroy w) = errorDestroy w) := by
  refine ⟨fun w => rfl, fun w => rfl, fun w => ?_⟩
  by_cases hb : w.isInitialized = true
  · exact errorDestroy_notInited _ (errorDestroy_inited w hb)
  · have hb' : w.isInitialized = false := by revert hb; cases w.isInitialized <;> simp
    have hw := errorDestroy_notInited w hb'
    rw [hw]
    exact hw

/-- C10: for both the Redux and the Vuex interceptor, in every state
reachable by any sequence of `init`, `setStore`, `autoFindStore`,
`getInfo` and `destroy` calls, the `getInfo()` snapshot satisfies
hasStore implies isInitialized: the store closure field is non-null only
while the api facade is non-null. -/
theorem c10_hasStore_implies_initialized :
    (∀ w : VuexWorld, VuexReach w →
        (vuexGetInfo w).hasStore = true → (vuexGetInfo w).isInitialized = true)
  ∧ (∀ w : ReduxWorld, ReduxReach w →
        (reduxGetInfo w).hasStore = true → (reduxGetInfo w).isInitialized = true) := by
  constructor
  · intro w hw
    induction hw with
    | start heap g1 g2 g3 => intro hs; simp [vuexGetInfo, vuexStartWorld] at hs
    | initStep hw ih => intro _; rfl
    | setStep arg hw ih => exact vuexSetStore_inv _ arg ih
    | autoStep hw ih => exact vuexAutoFindStore_inv _ ih
    | destroyStep hw ih =>
        intro hs
        rw [show (vuexGetInfo (vuexDestroy _).1).hasStore
              = Option.isSome (none : Option Nat) from rfl] at hs
        simp at hs
  · intro w hw
    induction hw with
    | start heap g1 g2 g3 => intro hs; simp [reduxGetInfo, reduxStartWorld] at hs
    | initStep hw ih => intro _; rfl
    | setStep arg hw ih => exact reduxSetStore_inv _ arg ih
    | autoStep hw ih => exact reduxAutoFindStore_inv _ ih
    | destroyStep hw ih =>
        intro hs
        rw [show (reduxGetInfo (reduxDestroy _).1).hasStore
              = Option.isSome (none : Option Nat) from rfl] at hs
        simp at hs

/-- Witness for C10 at a bound reachable world: construct, init, then
bind target 0; `getInfo` reports a store, and the theorem yields that it
also reports initialized. -/
theorem c10_hasStore_implies_initialized_witness :
    (vuexGetInfo c10VuexWorld).isInitialized = true
  ∧ (reduxGetInfo c10ReduxWorld).isInitialized = true :=
  ⟨c10_hasStore_implies_initialized.1 c10VuexWorld
      (VuexReach.setStep (some 0)
        (VuexReach.initStep (VuexReach.start (fun _ => vuexSampleObj) none none none)))
      rfl,
   c10_hasStore_implies_initialized.2 c10ReduxWorld
      (ReduxReach.setStep (some 0)
        (ReduxReach.initStep (ReduxReach.start (fun _ => reduxSampleObj) none none none)))
      rfl⟩
